import Mathlib

/-!
Verification of the topology-consistency and range-allocation logic of
ipa-replica-manage (src/ipaserver/commands/ipa_replica_manage.py).

The Python functions are shallowly embedded as executable Lean definitions:
strings become `List Char` or `String`, Python ints become `Int`/`Nat`,
LDAP reads become fields of explicit world records, and `sys.exit` becomes
an explicit result constructor carrying the process exit code (Python
`sys.exit(msg)` with a string argument exits with status 1).
-/

/-- MAXINT from six.moves.xmlrpc_client: the XML-RPC maximum signed 32-bit
integer, 2^31 - 1. -/
def MAXINT : Int := 2147483647

/-- Python `s.split('-', 1)` restricted to the failure/success shape used by
validate_range: `none` when the string contains no dash (so tuple unpacking
raises ValueError), otherwise the pieces before and after the first dash. -/
def splitDash : List Char → Option (List Char × List Char)
  | [] => none
  | c :: cs =>
    if c = '-' then some ([], cs)
    else (splitDash cs).map (fun p => (c :: p.1, p.2))

/-- Value of a nonempty all-digit string, `none` otherwise. -/
def digitsToNat (cs : List Char) : Option Nat :=
  if cs ≠ [] ∧ cs.all Char.isDigit then
    some (cs.foldl (fun n c => 10 * n + (c.toNat - 48)) 0)
  else none

/-- Python `int(s)` restricted to an optional single leading sign followed by
ASCII digits; other inputs raise ValueError, modelled as `none`. -/
def pyInt : List Char → Option Int
  | '-' :: rest => (digitsToNat rest).map (fun n => -(n : Int))
  | '+' :: rest => (digitsToNat rest).map (fun n => (n : Int))
  | cs => (digitsToNat cs).map (fun n => (n : Int))

/-- The inner helper validate_range of set_DNA_range
(ipa_replica_manage.py lines 1374-1400): parses "start-end", accepts the
all-zero sentinel when allowed, and bounds both endpoints inside [1, MAXINT).
Returns `none` on acceptance and the error string otherwise. -/
def validate_range (range : List Char) (allow_all_zero : Bool) : Option String :=
  match splitDash range with
  | none => some "Invalid range, must be the form x-y"
  | some (a, b) =>
    match pyInt a, pyInt b with
    | some dnaNext, some dnaMax =>
      if dnaNext = 0 ∧ dnaMax = 0 ∧ allow_all_zero = true then none
      else if dnaNext ≤ 0 ∨ dnaMax ≤ 0 ∨ dnaNext ≥ MAXINT ∨ dnaMax ≥ MAXINT then
        some "The range must consist of positive integers between 1 and 2147483647"
      else if dnaNext ≥ dnaMax then some "Invalid range"
      else none
    | _, _ => some "The range must consist of integers"

/-- Acceptance predicate transcribed from the specification's words for C3:
the string splits into two components, both parse as integers, and either
both are zero with the sentinel allowed, or both endpoints lie in [1, MAXINT)
with start < end. -/
def validate_acceptsSpec (range : List Char) (allow_all_zero : Bool) : Prop :=
  ∃ a b x y, splitDash range = some (a, b) ∧ pyInt a = some x ∧ pyInt b = some y ∧
    ((x = 0 ∧ y = 0 ∧ allow_all_zero = true) ∨
     (1 ≤ x ∧ x < MAXINT ∧ 1 ≤ y ∧ y < MAXINT ∧ x < y))

/-- The inner helper range_intersection of set_DNA_range
(ipa_replica_manage.py lines 1402-1403): closed-interval overlap test. -/
def range_intersection (s1 s2 r1 r2 : Int) : Bool :=
  decide (max s1 r1 ≤ min s2 r2)

/-- C3: for every range string and every value of the allow_all_zero flag,
validate_range accepts (returns none) exactly when the claim's acceptance
conditions hold, and hence errors exactly on the claim's rejection
conditions: no two components, a non-integer component, start >= end, or an
endpoint outside [1, MAXINT), save for the all-zero sentinel. -/
theorem validate_range_iff_spec (range : List Char) (allow_all_zero : Bool) :
    validate_range range allow_all_zero = none ↔
      validate_acceptsSpec range allow_all_zero := by
  unfold validate_range validate_acceptsSpec
  cases h1 : splitDash range with
  | none => simp
  | some ab =>
    obtain ⟨a, b⟩ := ab
    cases h2 : pyInt a with
    | none => simp [h2]
    | some x =>
      cases h3 : pyInt b with
      | none => simp [h2, h3]
      | some y =>
        simp only [h2, h3, Option.some.injEq, Prod.mk.injEq]
        constructor
        · intro h
          refine ⟨a, b, x, y, ⟨rfl, rfl⟩, h2, h3, ?_⟩
          simp only [MAXINT] at h ⊢
          split_ifs at h with hA hB hC
          · exact Or.inl hA
          · clear hA; right; omega
        · rintro ⟨a', b', x', y', ⟨rfl, rfl⟩, hx, hy, hcases⟩
          have hx' : x = x' := by rw [h2] at hx; exact Option.some.inj hx
          have hy' : y = y' := by rw [h3] at hy; exact Option.some.inj hy
          subst hx'; subst hy'
          rcases hcases with hz | hok
          · rw [if_pos hz]
          · simp only [MAXINT] at hok ⊢
            split_ifs with hA hB hC
            · rfl
            · exact absurd hB (by omega)
            · exact absurd hC (by omega)
            · rfl

/-- C8: the closed-interval overlap test of set_DNA_range is symmetric in the
two intervals, and for nonempty closed intervals it is true exactly when some
integer point lies in both. -/
theorem range_intersection_symm_and_points (a1 a2 b1 b2 : Int) :
    range_intersection a1 a2 b1 b2 = range_intersection b1 b2 a1 a2 ∧
      (a1 ≤ a2 → b1 ≤ b2 →
        (range_intersection a1 a2 b1 b2 = true ↔
          ∃ p : Int, (a1 ≤ p ∧ p ≤ a2) ∧ (b1 ≤ p ∧ p ≤ b2))) := by
  constructor
  · unfold range_intersection
    rw [max_comm, min_comm]
  · intro _ _
    unfold range_intersection
    rw [decide_eq_true_eq]
    constructor
    · intro h
      refine ⟨max a1 b1, ?_, ?_⟩
      · exact ⟨le_max_left _ _, le_trans h (min_le_left _ _)⟩
      · exact ⟨le_max_right _ _, le_trans h (min_le_right _ _)⟩
    · rintro ⟨p, ⟨hpa1, hpa2⟩, ⟨hpb1, hpb2⟩⟩
      have h1 : max a1 b1 ≤ p := max_le hpa1 hpb1
      have h2 : p ≤ min a2 b2 := le_min hpa2 hpb2
      exact le_trans h1 h2

/-- Witness for C8 at the intervals [0,2] and [1,3]. -/
theorem range_intersection_symm_and_points_witness :
    range_intersection 0 2 1 3 = true ↔
      ∃ p : Int, ((0 : Int) ≤ p ∧ p ≤ 2) ∧ ((1 : Int) ≤ p ∧ p ≤ 3) :=
  (range_intersection_symm_and_points 0 2 1 3).2 (by decide) (by decide)

/-- One master as seen by set_DNA_range: its registry name, whether a
connection to it succeeds, whether its DNA configuration is readable
(get_DNA_range raising NotFound means no permission), and its stored
current and on-deck DNA ranges (none when unset, i.e. the returned start
is None). -/
structure DNAMaster where
  name : String
  connOk : Bool
  readOk : Bool
  dnaRange : Option (Int × Int)
  dnaNextRange : Option (Int × Int)
deriving DecidableEq, Repr

/-- The directory state consulted by set_DNA_range: the masters registry,
the configured IPA domain ID ranges as (ipabaseid, ipaidrangesize) pairs,
and the trusted AD domain ranges in the same shape. -/
structure DnaWorld where
  masters : List DNAMaster
  domainRanges : List (Int × Int)
  trustRanges : List (Int × Int)
deriving DecidableEq, Repr

/-- Outcome of one set_DNA_range invocation: either the process exits with
the given status and message (sys.exit with a string exits with status 1),
or the range is written, yielding the updated world. -/
inductive SetRangeResult
  | exited (code : Nat) (msg : String)
  | written (w : DnaWorld)
deriving DecidableEq, Repr

/-- Normalization step of set_DNA_range after validation: re-split the range
string and parse both components. -/
def parseRange (cs : List Char) : Option (Int × Int) :=
  match splitDash cs with
  | some (a, b) =>
    match pyInt a, pyInt b with
    | some x, some y => some (x, y)
    | _, _ => none
  | none => none

/-- Skip conditions of the per-master overlap loop in set_DNA_range
(lines 1430-1442): the target itself is skipped unless setting a next
range, an unreachable master is skipped with a warning, and a master whose
DNA configuration is unreadable is skipped. -/
def masterChecked (hostname : String) (nextRange : Bool) (m : DNAMaster) : Bool :=
  !(m.name == hostname && !nextRange) && m.connOk && m.readOk

/-- Overlap of the requested range with a master's current DNA range
(line 1444-1447). -/
def curOverlap (dnaNext dnaMax : Int) (m : DNAMaster) : Bool :=
  match m.dnaRange with
  | some (s, mx) => range_intersection s mx dnaNext dnaMax
  | none => false

/-- Overlap of the requested range with a master's on-deck DNA range
(line 1449-1452). -/
def nextOverlap (dnaNext dnaMax : Int) (m : DNAMaster) : Bool :=
  match m.dnaNextRange with
  | some (s, mx) => range_intersection s mx dnaNext dnaMax
  | none => false

/-- The per-master overlap loop of set_DNA_range (lines 1423-1453): scans the
masters in order and exits on the first overlap found, naming that master;
returns the exit message, or none when the scan passes. -/
def overlapScanMsg (hostname : String) (nextRange : Bool) (dnaNext dnaMax : Int) :
    List DNAMaster → Option String
  | [] => none
  | m :: ms =>
    if masterChecked hostname nextRange m then
      if curOverlap dnaNext dnaMax m then
        some ("New range overlaps the DNA range on " ++ m.name)
      else if nextOverlap dnaNext dnaMax m then
        some ("New range overlaps the DNA next range on " ++ m.name)
      else overlapScanMsg hostname nextRange dnaNext dnaMax ms
    else overlapScanMsg hostname nextRange dnaNext dnaMax ms

/-- Domain containment check of set_DNA_range (lines 1463-1469): the for/else
loop breaks when some IPA domain range contains the request entirely. -/
def domainFit (dnaNext dnaMax : Int) (ranges : List (Int × Int)) : Bool :=
  ranges.any (fun p => decide (dnaNext ≥ p.1) && decide (dnaMax ≤ p.1 + p.2))

/-- Trust range check of set_DNA_range (lines 1477-1481): exits when the
request intersects any trusted AD domain range. -/
def trustOverlap (dnaNext dnaMax : Int) (ranges : List (Int × Int)) : Bool :=
  ranges.any (fun p => range_intersection dnaNext dnaMax p.1 (p.1 + p.2))

/-- Lookup of the target master; connection failure at line 1417-1419 exits. -/
def findMaster (w : DnaWorld) (hostname : String) : Option DNAMaster :=
  w.masters.find? (fun m => m.name == hostname)

/-- Modelled from the spec: the final write of set_DNA_range calls
save_DNA_range / save_DNA_next_range of the replication module, which is not
among the sources; per the spec, writing is a no-op with an explicit
"no changes" signal (errors.EmptyModlist, caught at lines 1488/1498 and
turned into sys.exit, status 1) when the new value equals the stored one,
and otherwise stores the new range on the target master. -/
def saveDNA (hostname : String) (dnaNext dnaMax : Int) (w : DnaWorld)
    (nextRange : Bool) (target : DNAMaster) : SetRangeResult :=
  if nextRange then
    if target.dnaNextRange = some (dnaNext, dnaMax) then
      .exited 1 "No changes to make"
    else
      .written { w with masters := w.masters.map (fun m =>
        if m.name == hostname then { m with dnaNextRange := some (dnaNext, dnaMax) } else m) }
  else
    if target.dnaRange = some (dnaNext, dnaMax) then
      .exited 1 "No changes to make"
    else
      .written { w with masters := w.masters.map (fun m =>
        if m.name == hostname then { m with dnaRange := some (dnaNext, dnaMax) } else m) }

/-- set_DNA_range (ipa_replica_manage.py lines 1356-1503): validates the
requested range, connects to the target master, and, when the requested
start is positive, checks overlap against every other master's current and
on-deck ranges, containment in an IPA domain range, and disjointness from
trust ranges, exiting on the first violation; only then writes. The all-zero
on-deck request (dna_next = 0) skips all checks. -/
def set_DNA_range (hostname : String) (rangeStr : List Char) (w : DnaWorld)
    (nextRange : Bool) : SetRangeResult :=
  match validate_range rangeStr nextRange with
  | some err => .exited 1 err
  | none =>
    match parseRange rangeStr with
    | none => .exited 1 "Invalid range, must be the form x-y"
    | some (dnaNext, dnaMax) =>
      match findMaster w hostname with
      | none => .exited 1 "Connection failed"
      | some target =>
        if !target.connOk then .exited 1 "Connection failed"
        else if 0 < dnaNext then
          match overlapScanMsg hostname nextRange dnaNext dnaMax w.masters with
          | some msg => .exited 1 msg
          | none =>
            if w.domainRanges = [] then .exited 1 "Unable to load IPA ranges"
            else if !domainFit dnaNext dnaMax w.domainRanges then
              .exited 1 "New range does not fit within existing IPA ranges. See ipa help idrange command"
            else if trustOverlap dnaNext dnaMax w.trustRanges then
              .exited 1 "New range overlaps with a Trust range. See ipa help idrange command"
            else saveDNA hostname dnaNext dnaMax w nextRange target
        else saveDNA hostname dnaNext dnaMax w nextRange target

/-- A master that the overlap loop inspects and that holds an overlapping
current or on-deck range, making the loop exit. -/
def overlapTrigger (hostname : String) (nextRange : Bool) (dnaNext dnaMax : Int)
    (m : DNAMaster) : Bool :=
  masterChecked hostname nextRange m &&
    (curOverlap dnaNext dnaMax m || nextOverlap dnaNext dnaMax m)

/-- If some master in the list triggers the overlap loop, the loop exits with
some message. -/
theorem overlapScanMsg_some_of_mem (hostname : String) (nextRange : Bool)
    (dnaNext dnaMax : Int) (ms : List DNAMaster) (m : DNAMaster) (hm : m ∈ ms)
    (ht : overlapTrigger hostname nextRange dnaNext dnaMax m = true) :
    ∃ msg, overlapScanMsg hostname nextRange dnaNext dnaMax ms = some msg := by
  induction ms with
  | nil => cases hm
  | cons a as ih =>
    unfold overlapScanMsg
    by_cases hc : masterChecked hostname nextRange a = true
    · rw [if_pos hc]
      by_cases h1 : curOverlap dnaNext dnaMax a = true
      · rw [if_pos h1]; exact ⟨_, rfl⟩
      · rw [if_neg h1]
        by_cases h2 : nextOverlap dnaNext dnaMax a = true
        · rw [if_pos h2]; exact ⟨_, rfl⟩
        · rw [if_neg h2]
          rcases List.mem_cons.mp hm with rfl | hm'
          · simp only [overlapTrigger, Bool.and_eq_true, Bool.or_eq_true] at ht
            rcases ht.2 with hx | hx
            · exact absurd hx h1
            · exact absurd hx h2
          · exact ih hm'
    · rw [if_neg hc]
      rcases List.mem_cons.mp hm with rfl | hm'
      · simp only [overlapTrigger, Bool.and_eq_true] at ht
        exact absurd ht.1 hc
      · exact ih hm'

/-- Any message produced by the overlap loop names a master of the list that
was inspected and genuinely holds an overlapping current or on-deck range. -/
theorem overlapScanMsg_sound (hostname : String) (nextRange : Bool)
    (dnaNext dnaMax : Int) (ms : List DNAMaster) (msg : String)
    (h : overlapScanMsg hostname nextRange dnaNext dnaMax ms = some msg) :
    ∃ m', m' ∈ ms ∧ masterChecked hostname nextRange m' = true ∧
      ((msg = "New range overlaps the DNA range on " ++ m'.name ∧
        curOverlap dnaNext dnaMax m' = true) ∨
       (msg = "New range overlaps the DNA next range on " ++ m'.name ∧
        nextOverlap dnaNext dnaMax m' = true)) := by
  induction ms with
  | nil => simp [overlapScanMsg] at h
  | cons a as ih =>
    unfold overlapScanMsg at h
    by_cases hc : masterChecked hostname nextRange a = true
    · rw [if_pos hc] at h
      by_cases h1 : curOverlap dnaNext dnaMax a = true
      · rw [if_pos h1] at h
        exact ⟨a, List.mem_cons_self a as, hc, Or.inl ⟨(Option.some.inj h).symm, h1⟩⟩
      · rw [if_neg h1] at h
        by_cases h2 : nextOverlap dnaNext dnaMax a = true
        · rw [if_pos h2] at h
          exact ⟨a, List.mem_cons_self a as, hc, Or.inr ⟨(Option.some.inj h).symm, h2⟩⟩
        · rw [if_neg h2] at h
          obtain ⟨m', hmem, rest⟩ := ih h
          exact ⟨m', List.mem_cons_of_mem _ hmem, rest⟩
    · rw [if_neg hc] at h
      obtain ⟨m', hmem, rest⟩ := ih h
      exact ⟨m', List.mem_cons_of_mem _ hmem, rest⟩

/-- C2: when set_DNA_range is invoked with a valid positive range that
overlaps, under the closed-interval test, the current or on-deck range of
some other reachable, readable master, the run exits with status 1 and an
overlap error naming a master that holds an overlapping range, and no
master's stored ranges are written. -/
theorem set_DNA_range_overlap_aborts
    (hostname : String) (rangeStr : List Char) (w : DnaWorld) (nextRange : Bool)
    (dnaNext dnaMax : Int) (target m : DNAMaster)
    (hv : validate_range rangeStr nextRange = none)
    (hp : parseRange rangeStr = some (dnaNext, dnaMax))
    (hpos : 0 < dnaNext)
    (htgt : findMaster w hostname = some target)
    (htc : target.connOk = true)
    (hm : m ∈ w.masters)
    (hother : m.name ≠ hostname)
    (hmc : m.connOk = true) (hmr : m.readOk = true)
    (hov : curOverlap dnaNext dnaMax m = true ∨ nextOverlap dnaNext dnaMax m = true) :
    ∃ m', m' ∈ w.masters ∧
      ((set_DNA_range hostname rangeStr w nextRange =
          .exited 1 ("New range overlaps the DNA range on " ++ m'.name) ∧
        curOverlap dnaNext dnaMax m' = true) ∨
       (set_DNA_range hostname rangeStr w nextRange =
          .exited 1 ("New range overlaps the DNA next range on " ++ m'.name) ∧
        nextOverlap dnaNext dnaMax m' = true)) ∧
      ∀ w', set_DNA_range hostname rangeStr w nextRange ≠ .written w' := by
  have hcheck : masterChecked hostname nextRange m = true := by
    unfold masterChecked
    have hne : (m.name == hostname) = false := beq_eq_false_iff_ne.mpr hother
    rw [hne, hmc, hmr]
    simp
  have htrig : overlapTrigger hostname nextRange dnaNext dnaMax m = true := by
    unfold overlapTrigger
    rw [hcheck, Bool.true_and, Bool.or_eq_true]
    exact hov
  obtain ⟨msg, hscan⟩ :=
    overlapScanMsg_some_of_mem hostname nextRange dnaNext dnaMax w.masters m hm htrig
  obtain ⟨m', hmem', _, hmsg'⟩ :=
    overlapScanMsg_sound hostname nextRange dnaNext dnaMax w.masters msg hscan
  have hres : set_DNA_range hostname rangeStr w nextRange = .exited 1 msg := by
    simp [set_DNA_range, hv, hp, htgt, htc, hscan, hpos]
  refine ⟨m', hmem', ?_, ?_⟩
  · rcases hmsg' with ⟨hmeq, hcur⟩ | ⟨hmeq, hnext⟩
    · exact Or.inl ⟨by rw [hres, hmeq], hcur⟩
    · exact Or.inr ⟨by rw [hres, hmeq], hnext⟩
  · intro w' hcontra
    rw [hres] at hcontra
    exact SetRangeResult.noConfusion hcontra

/-- Target master of the C2 witness scenario: no ranges stored yet. -/
def exTargetM : DNAMaster := ⟨"m1.example.com", true, true, none, none⟩

/-- Other master of the C2 witness scenario: holds 150-250. -/
def exOtherN : DNAMaster := ⟨"m2.example.com", true, true, some (150, 250), none⟩

/-- World of the C2 witness scenario. -/
def exDnaWorld : DnaWorld := ⟨[exTargetM, exOtherN], [(1, 100000)], []⟩

/-- Witness for C2: requesting 100-200 on m1 while m2 holds 150-250 aborts
with the overlap error and writes nothing. -/
theorem set_DNA_range_overlap_aborts_witness :
    ∃ m', m' ∈ exDnaWorld.masters ∧
      ((set_DNA_range "m1.example.com" "100-200".toList exDnaWorld false =
          .exited 1 ("New range overlaps the DNA range on " ++ m'.name) ∧
        curOverlap 100 200 m' = true) ∨
       (set_DNA_range "m1.example.com" "100-200".toList exDnaWorld false =
          .exited 1 ("New range overlaps the DNA next range on " ++ m'.name) ∧
        nextOverlap 100 200 m' = true)) ∧
      ∀ w', set_DNA_range "m1.example.com" "100-200".toList exDnaWorld false ≠ .written w' :=
  set_DNA_range_overlap_aborts "m1.example.com" "100-200".toList exDnaWorld false
    100 200 exTargetM exOtherN (by decide) (by decide) (by decide) (by decide)
    (by decide) (by decide) (by decide) (by decide) (by decide) (Or.inl (by decide))

/-- C6 (amended): for a requested range with positive start, if the request
intersects any configured trust range then set_DNA_range exits with status 1
before any write; a positive range intersecting a trust range is never
stored. -/
theorem set_DNA_range_trust_no_write
    (hostname : String) (rangeStr : List Char) (w : DnaWorld) (nextRange : Bool)
    (dnaNext dnaMax : Int) (b s : Int)
    (hp : parseRange rangeStr = some (dnaNext, dnaMax))
    (hpos : 0 < dnaNext)
    (ht : (b, s) ∈ w.trustRanges)
    (hint : range_intersection dnaNext dnaMax b (b + s) = true) :
    ∃ msg, set_DNA_range hostname rangeStr w nextRange = .exited 1 msg := by
  cases hv : validate_range rangeStr nextRange with
  | some err => exact ⟨err, by simp [set_DNA_range, hv]⟩
  | none =>
    cases htg : findMaster w hostname with
    | none => exact ⟨"Connection failed", by simp [set_DNA_range, hv, hp, htg]⟩
    | some target =>
      by_cases hc : target.connOk = true
      · cases hs : overlapScanMsg hostname nextRange dnaNext dnaMax w.masters with
        | some msg => exact ⟨msg, by simp [set_DNA_range, hv, hp, htg, hs, hc, hpos]⟩
        | none =>
          by_cases hde : w.domainRanges = []
          · exact ⟨"Unable to load IPA ranges",
              by simp [set_DNA_range, hv, hp, htg, hs, hc, hpos, hde]⟩
          · by_cases hdf : domainFit dnaNext dnaMax w.domainRanges = true
            · have htr : trustOverlap dnaNext dnaMax w.trustRanges = true := by
                unfold trustOverlap
                rw [List.any_eq_true]
                exact ⟨(b, s), ht, hint⟩
              exact ⟨"New range overlaps with a Trust range. See ipa help idrange command",
                by simp [set_DNA_range, hv, hp, htg, hs, hc, hpos, hde, hdf, htr]⟩
            · exact ⟨"New range does not fit within existing IPA ranges. See ipa help idrange command",
                by simp [set_DNA_range, hv, hp, htg, hs, hc, hpos, hde, hdf]⟩
      · exact ⟨"Connection failed", by simp [set_DNA_range, hv, hp, htg, hc]⟩

/-- Master of the C6 counterexample: holds the on-deck range 1-2. -/
def exTrustM : DNAMaster := ⟨"t1.example.com", true, true, none, some (1, 2)⟩

/-- World of the C6 counterexample: one trust range starting at base id 0. -/
def exTrustWorld : DnaWorld := ⟨[exTrustM], [(1, 100000)], [(0, 5)]⟩

/-- Counterexample for C6 as stated: the all-zero on-deck request 0-0
intersects the trust range based at 0 under the code's own closed-interval
test, yet set_DNA_range skips every check (dna_next > 0 is false) and stores
it without any error. -/
theorem set_DNA_range_trust_counterexample :
    set_DNA_range "t1.example.com" "0-0".toList exTrustWorld true =
      .written ⟨[⟨"t1.example.com", true, true, none, some (0, 0)⟩], [(1, 100000)], [(0, 5)]⟩ ∧
    range_intersection 0 0 0 (0 + 5) = true := by
  exact ⟨by decide, by decide⟩

/-- C9 (amended): when the requested range is valid, positive and passes
every check, but equals the value already stored on the target master,
set_DNA_range performs no write, signals "No changes to make" and the
process terminates with exit status 1 (sys.exit with a string message). -/
theorem set_DNA_range_nochange_exits_one
    (hostname : String) (rangeStr : List Char) (w : DnaWorld) (nextRange : Bool)
    (dnaNext dnaMax : Int) (target : DNAMaster)
    (hv : validate_range rangeStr nextRange = none)
    (hp : parseRange rangeStr = some (dnaNext, dnaMax))
    (hpos : 0 < dnaNext)
    (htgt : findMaster w hostname = some target)
    (htc : target.connOk = true)
    (hs : overlapScanMsg hostname nextRange dnaNext dnaMax w.masters = none)
    (hde : w.domainRanges ≠ [])
    (hdf : domainFit dnaNext dnaMax w.domainRanges = true)
    (htr : trustOverlap dnaNext dnaMax w.trustRanges = false)
    (heq : (if nextRange then target.dnaNextRange else target.dnaRange) =
      some (dnaNext, dnaMax)) :
    set_DNA_range hostname rangeStr w nextRange = .exited 1 "No changes to make" := by
  have hstep : set_DNA_range hostname rangeStr w nextRange =
      saveDNA hostname dnaNext dnaMax w nextRange target := by
    simp [set_DNA_range, hv, hp, htgt, htc, hpos, hs, hde, hdf, htr]
  rw [hstep]
  unfold saveDNA
  cases nextRange with
  | true => rw [if_pos rfl] at heq ⊢; rw [if_pos heq]
  | false => rw [if_neg Bool.false_ne_true] at heq ⊢; rw [if_pos heq]

/-- Target master of the C9 scenario: already holds the range 100-200. -/
def exC9M : DNAMaster := ⟨"m9.example.com", true, true, some (100, 200), none⟩

/-- World of the C9 scenario. -/
def exC9World : DnaWorld := ⟨[exC9M], [(1, 100000)], []⟩

/-- Witness for C9 (amended): re-requesting the stored range 100-200 exits
with status 1 and the "No changes to make" message. -/
theorem set_DNA_range_nochange_exits_one_witness :
    set_DNA_range "m9.example.com" "100-200".toList exC9World false =
      .exited 1 "No changes to make" :=
  set_DNA_range_nochange_exits_one "m9.example.com" "100-200".toList exC9World false
    100 200 exC9M (by decide) (by decide) (by decide) (by decide) (by decide)
    (by decide) (by decide) (by decide) (by decide) (by decide)

/-- Counterexample for C9 as stated: on the "nothing to do" path the process
exits with status 1, not 0 — sys.exit is called with the string
"No changes to make", and Python exits with status 1 for any non-integer
argument. -/
theorem set_DNA_range_nochange_exit_code_counterexample :
    set_DNA_range "m9.example.com" "100-200".toList exC9World false =
      .exited 1 "No changes to make" ∧
    (SetRangeResult.exited 1 "No changes to make" ≠
      SetRangeResult.exited 0 "No changes to make") := by
  exact ⟨by decide, by decide⟩

/-- Witness for C6 (amended): requesting 1-2 on t1 while the trust range
based at 0 with size 5 is configured exits with status 1 and writes
nothing. -/
theorem set_DNA_range_trust_no_write_witness :
    ∃ msg, set_DNA_range "t1.example.com" "1-2".toList exTrustWorld false =
      .exited 1 msg :=
  set_DNA_range_trust_no_write "t1.example.com" "1-2".toList exTrustWorld false
    1 2 0 5 (by decide) (by decide) (by decide) (by decide)

/-- Python re.sub of the pattern colon-digits with the empty string, fuelled
by the input length so that the recursion is structural: every occurrence of
a colon followed by one or more ASCII digits is removed. -/
def stripPortsFuel : Nat → List Char → List Char
  | 0, l => l
  | _ + 1, [] => []
  | n + 1, c :: cs =>
    if c = ':' ∧ cs.takeWhile Char.isDigit ≠ [] then
      stripPortsFuel n (cs.dropWhile Char.isDigit)
    else c :: stripPortsFuel n cs

/-- Port stripping applied to observed RUV origins in clean_dangling_ruvs
(ipa_replica_manage.py lines 720-731). -/
def stripPorts (s : String) : String :=
  (stripPortsFuel s.data.length s.data).asString

/-- One master as seen by clean_dangling_ruvs: registry name, whether the
LDAPS bind to it succeeds (online), whether a CA entry exists under its
masters registry entry, its own domain and CS replica ids as read from the
replica configuration entries (none when the entry is absent), whether
get_ruv_both_suffixes succeeded, and the raw observed RUV lists (origin
still carrying its port) for the domain and ca suffixes. -/
structure RuvMaster where
  name : String
  online : Bool
  hasCA : Bool
  ownRid : Option String
  ownCsRid : Option String
  fetchOk : Bool
  domainRuvs : List (String × String)
  caRuvs : List (String × String)
deriving DecidableEq, Repr

/-- The offlines set of clean_dangling_ruvs (lines 679-691): names of masters
whose bind failed. -/
def offlines (ms : List RuvMaster) : List String :=
  (ms.filter (fun m => !m.online)).map (fun m => m.name)

/-- The ruvs set of clean_dangling_ruvs (lines 693-699): each online master's
own (hostname, replica-id) pair from its domain replica entry; offline
masters contribute nothing. -/
def selfRuvs (ms : List RuvMaster) : List (String × String) :=
  ms.filterMap (fun m => if m.online then m.ownRid.map (fun r => (m.name, r)) else none)

/-- The csruvs set of clean_dangling_ruvs (lines 702-709): same for the CS
suffix, only for masters with a CA configured. -/
def selfCsRuvs (ms : List RuvMaster) : List (String × String) :=
  ms.filterMap (fun m =>
    if m.online && m.hasCA then m.ownCsRid.map (fun r => (m.name, r)) else none)

/-- The observed domain RUV set of one master (lines 711-726): empty unless
the master is online and the fetch succeeded; origins have their port
stripped. -/
def observedRuvs (m : RuvMaster) : List (String × String) :=
  if m.online && m.fetchOk then
    m.domainRuvs.map (fun p => (stripPorts p.1, p.2))
  else []

/-- The observed CS RUV set of one master (lines 727-731). -/
def observedCsRuvs (m : RuvMaster) : List (String × String) :=
  if m.online && m.fetchOk then
    m.caRuvs.map (fun p => (stripPorts p.1, p.2))
  else []

/-- The clean_ruv set of one master (lines 738-744): observed domain entries
on an online master that match no online master's self pair and whose origin
is not offline. -/
def clean_ruv_set (ms : List RuvMaster) (m : RuvMaster) : List (String × String) :=
  if m.online then
    (observedRuvs m).filter (fun r =>
      !decide (r ∈ selfRuvs ms) && !decide (r.1 ∈ offlines ms))
  else []

/-- The clean_csruv set of one master (lines 746-749). -/
def clean_csruv_set (ms : List RuvMaster) (m : RuvMaster) : List (String × String) :=
  if m.online then
    (observedCsRuvs m).filter (fun r =>
      !decide (r ∈ selfCsRuvs ms) && !decide (r.1 ∈ offlines ms))
  else []

/-- Membership in the ruvs set unfolded: the pair is some online master's
name together with that master's own replica id. -/
theorem mem_selfRuvs_iff (ms : List RuvMaster) (o r : String) :
    (o, r) ∈ selfRuvs ms ↔
      ∃ m' ∈ ms, m'.online = true ∧ m'.name = o ∧ m'.ownRid = some r := by
  unfold selfRuvs
  rw [List.mem_filterMap]
  constructor
  · rintro ⟨m', hmem, hf⟩
    by_cases ho : m'.online = true
    · rw [if_pos ho, Option.map_eq_some'] at hf
      obtain ⟨rid, hrid, heq⟩ := hf
      obtain ⟨hname, hr⟩ := Prod.mk.injEq .. ▸ heq
      exact ⟨m', hmem, ho, hname, hr ▸ hrid⟩
    · rw [if_neg ho] at hf
      cases hf
  · rintro ⟨m', hmem, ho, hname, hrid⟩
    refine ⟨m', hmem, ?_⟩
    rw [if_pos ho, hrid]
    simp [hname]

/-- Membership in the offlines set unfolded. -/
theorem mem_offlines_iff (ms : List RuvMaster) (o : String) :
    o ∈ offlines ms ↔ ∃ m' ∈ ms, m'.online = false ∧ m'.name = o := by
  unfold offlines
  rw [List.mem_map]
  constructor
  · rintro ⟨m', hmem, rfl⟩
    rw [List.mem_filter] at hmem
    exact ⟨m', hmem.1, by simpa using hmem.2, rfl⟩
  · rintro ⟨m', hmem, hoff, rfl⟩
    exact ⟨m', List.mem_filter.mpr ⟨hmem, by simp [hoff]⟩, rfl⟩

/-- C1 (amended): an entry (origin, rid) observed on an online master is
added to that master's clean set if and only if the pair, after port
stripping, coincides with no online master's own (hostname, replica-id)
pair and origin is not among the masters found offline; in particular
entries whose origin is offline are never marked for cleanup. -/
theorem clean_ruv_mem_iff (ms : List RuvMaster) (m : RuvMaster) (o r : String)
    (_hin : m ∈ ms) (hm : m.online = true) (hobs : (o, r) ∈ observedRuvs m) :
    ((o, r) ∈ clean_ruv_set ms m ↔
      ((∀ m' ∈ ms, m'.online = true → ¬(m'.name = o ∧ m'.ownRid = some r)) ∧
       (∀ m' ∈ ms, m'.name = o → m'.online = true))) := by
  unfold clean_ruv_set
  rw [if_pos hm, List.mem_filter]
  constructor
  · rintro ⟨-, hp⟩
    rw [Bool.and_eq_true] at hp
    obtain ⟨h1, h2⟩ := hp
    rw [Bool.not_eq_true'] at h1 h2
    rw [decide_eq_false_iff_not] at h1 h2
    constructor
    · rintro m' hmem hon ⟨hname, hrid⟩
      exact h1 ((mem_selfRuvs_iff ms o r).mpr ⟨m', hmem, hon, hname, hrid⟩)
    · intro m' hmem hname
      by_contra hoff
      exact h2 ((mem_offlines_iff ms o).mpr
        ⟨m', hmem, Bool.not_eq_true _ ▸ hoff, hname⟩)
  · rintro ⟨hall, honl⟩
    refine ⟨hobs, ?_⟩
    rw [Bool.and_eq_true, Bool.not_eq_true', Bool.not_eq_true',
      decide_eq_false_iff_not, decide_eq_false_iff_not]
    constructor
    · intro hmemS
      obtain ⟨m', hmem, hon, hname, hrid⟩ := (mem_selfRuvs_iff ms o r).mp hmemS
      exact hall m' hmem hon ⟨hname, hrid⟩
    · intro hmemO
      obtain ⟨m', hmem, hoff, hname⟩ := (mem_offlines_iff ms o).mp hmemO
      rw [honl m' hmem hname] at hoff
      cases hoff

/-- Master A of the C1 scenario: online, own replica id 1, observing the raw
domain RUV (b.example.com:389, 3). -/
def exRuvA : RuvMaster :=
  ⟨"a.example.com", true, false, some "1", none, true, [("b.example.com:389", "3")], []⟩

/-- Master B of the C1 scenario: online, own replica id 2. -/
def exRuvB : RuvMaster :=
  ⟨"b.example.com", true, false, some "2", none, true, [], []⟩

/-- The master list of the C1 scenario. -/
def exRuvWorld : List RuvMaster := [exRuvA, exRuvB]

/-- Counterexample for C1 as stated: the entry (b.example.com, 3) observed on
master A is added to A's clean set although b.example.com is a current
master's hostname and is not offline — the code compares whole
(origin, replica-id) pairs against the online masters' self-reported pairs,
not origins against hostnames. -/
theorem clean_ruv_counterexample :
    ("b.example.com", "3") ∈ clean_ruv_set exRuvWorld exRuvA ∧
    "b.example.com" ∈ exRuvWorld.map (fun m => m.name) ∧
    ¬ "b.example.com" ∈ offlines exRuvWorld := by
  exact ⟨by decide, by decide, by decide⟩

/-- Witness for C1 (amended) at the scenario masters: the classification of
(b.example.com, 3) observed on A matches the pairwise characterization. -/
theorem clean_ruv_mem_iff_witness :
    ("b.example.com", "3") ∈ clean_ruv_set exRuvWorld exRuvA ↔
      ((∀ m' ∈ exRuvWorld, m'.online = true →
          ¬(m'.name = "b.example.com" ∧ m'.ownRid = some "3")) ∧
       (∀ m' ∈ exRuvWorld, m'.name = "b.example.com" → m'.online = true)) :=
  clean_ruv_mem_iff exRuvWorld exRuvA "b.example.com" "3"
    (by decide) (by decide) (by decide)

/-- One step of the cleanup dispatch loop of clean_dangling_ruvs
(lines 775-786): the state is (cleaned set, issued task list); a replica id
already in the cleaned set is skipped, otherwise it is recorded and a
CLEANALLRUV task for it is issued. -/
def issueStep (st : List String × List String) (rid : String) :
    List String × List String :=
  if rid ∈ st.1 then st else (rid :: st.1, st.2 ++ [rid])

/-- Dispatch of all replica ids of one clean set. -/
def issueRids (st : List String × List String) (rids : List String) :
    List String × List String :=
  rids.foldl issueStep st

/-- The full cleanup dispatch of clean_dangling_ruvs: for each master in
order, first its clean_ruv ids, then its clean_csruv ids, all sharing one
cleaned set; the result is the list of replica ids for which a CLEANALLRUV
task was issued. -/
def cleanupTasks (ms : List RuvMaster) : List String :=
  (ms.foldl (fun st m =>
    issueRids (issueRids st ((clean_ruv_set ms m).map (fun r => r.2)))
      ((clean_csruv_set ms m).map (fun r => r.2))) ([], [])).2

/-- Invariant of the cleanup dispatch state: the issued list has no
duplicates and the cleaned set holds exactly the issued ids. -/
def TaskInv (st : List String × List String) : Prop :=
  st.2.Nodup ∧ ∀ r, r ∈ st.1 ↔ r ∈ st.2

/-- One dispatch step preserves the invariant and issues exactly the given
id beyond what was already issued. -/
theorem issueStep_inv (st : List String × List String) (rid : String)
    (h : TaskInv st) :
    TaskInv (issueStep st rid) ∧
      ∀ r, r ∈ (issueStep st rid).2 ↔ r ∈ st.2 ∨ r = rid := by
  unfold issueStep
  by_cases hmem : rid ∈ st.1
  · rw [if_pos hmem]
    refine ⟨h, fun r => ?_⟩
    constructor
    · exact Or.inl
    · rintro (hr | rfl)
      · exact hr
      · exact (h.2 r).mp hmem
  · rw [if_neg hmem]
    constructor
    · constructor
      · rw [List.nodup_append]
        refine ⟨h.1, List.nodup_singleton _, ?_⟩
        intro a ha hb
        rw [List.mem_singleton] at hb
        subst hb
        exact hmem ((h.2 a).mpr ha)
      · intro r
        rw [List.mem_cons, List.mem_append, List.mem_singleton, h.2 r]
        tauto
    · intro r
      rw [List.mem_append, List.mem_singleton]

/-- Dispatching a list of ids preserves the invariant and issues exactly the
ids of the list beyond what was already issued. -/
theorem issueRids_inv (rids : List String) (st : List String × List String)
    (h : TaskInv st) :
    TaskInv (issueRids st rids) ∧
      ∀ r, r ∈ (issueRids st rids).2 ↔ r ∈ st.2 ∨ r ∈ rids := by
  induction rids generalizing st with
  | nil =>
    refine ⟨h, fun r => ?_⟩
    simp [issueRids]
  | cons a as ih =>
    obtain ⟨h1, h2⟩ := issueStep_inv st a h
    obtain ⟨hinv, hmem⟩ := ih (issueStep st a) h1
    refine ⟨?_, ?_⟩
    · simpa [issueRids, List.foldl_cons] using hinv
    · intro r
      have : issueRids st (a :: as) = issueRids (issueStep st a) as := by
        simp [issueRids, List.foldl_cons]
      rw [this, hmem r, h2 r, List.mem_cons]
      tauto

/-- C7: in one clean-dangling-ruv run, every replica id receives at most one
CLEANALLRUV task — the issued task list has no duplicates — and a task is
issued exactly for the ids appearing in some master's clean sets. -/
theorem cleanupTasks_nodup (ms : List RuvMaster) :
    (cleanupTasks ms).Nodup ∧
    ∀ rid, rid ∈ cleanupTasks ms ↔
      ∃ m ∈ ms, rid ∈ (clean_ruv_set ms m).map (fun r => r.2) ∨
                rid ∈ (clean_csruv_set ms m).map (fun r => r.2) := by
  have key : ∀ (l : List RuvMaster) (st : List String × List String), TaskInv st →
      TaskInv (l.foldl (fun st m =>
        issueRids (issueRids st ((clean_ruv_set ms m).map (fun r => r.2)))
          ((clean_csruv_set ms m).map (fun r => r.2))) st) ∧
      ∀ r, r ∈ (l.foldl (fun st m =>
        issueRids (issueRids st ((clean_ruv_set ms m).map (fun r => r.2)))
          ((clean_csruv_set ms m).map (fun r => r.2))) st).2 ↔
        r ∈ st.2 ∨ ∃ m ∈ l, r ∈ (clean_ruv_set ms m).map (fun r => r.2) ∨
                            r ∈ (clean_csruv_set ms m).map (fun r => r.2) := by
    intro l
    induction l with
    | nil =>
      intro st h
      refine ⟨h, fun r => ?_⟩
      simp
    | cons a as ih =>
      intro st h
      obtain ⟨h1, h1m⟩ := issueRids_inv ((clean_ruv_set ms a).map (fun r => r.2)) st h
      obtain ⟨h2, h2m⟩ :=
        issueRids_inv ((clean_csruv_set ms a).map (fun r => r.2)) _ h1
      obtain ⟨hinv, hmem⟩ := ih _ h2
      refine ⟨by simpa [List.foldl_cons] using hinv, ?_⟩
      intro r
      have hfold : (a :: as).foldl (fun st m =>
          issueRids (issueRids st ((clean_ruv_set ms m).map (fun r => r.2)))
            ((clean_csruv_set ms m).map (fun r => r.2))) st =
        as.foldl (fun st m =>
          issueRids (issueRids st ((clean_ruv_set ms m).map (fun r => r.2)))
            ((clean_csruv_set ms m).map (fun r => r.2)))
          (issueRids (issueRids st ((clean_ruv_set ms a).map (fun r => r.2)))
            ((clean_csruv_set ms a).map (fun r => r.2))) := by
        simp [List.foldl_cons]
      rw [hfold, hmem r, h2m r, h1m r]
      simp only [List.mem_cons]
      constructor
      · rintro (((hr | hc1) | hc2) | ⟨m, hm, hc⟩)
        · exact Or.inl hr
        · exact Or.inr ⟨a, Or.inl rfl, Or.inl hc1⟩
        · exact Or.inr ⟨a, Or.inl rfl, Or.inr hc2⟩
        · exact Or.inr ⟨m, Or.inr hm, hc⟩
      · rintro (hr | ⟨m, (rfl | hm), hc⟩)
        · exact Or.inl (Or.inl (Or.inl hr))
        · rcases hc with hc1 | hc2
          · exact Or.inl (Or.inl (Or.inr hc1))
          · exact Or.inl (Or.inr hc2)
        · exact Or.inr ⟨m, hm, hc⟩
  obtain ⟨hinv, hmem⟩ := key ms ([], []) ⟨List.nodup_nil, by intro r; simp⟩
  refine ⟨hinv.1, fun rid => ?_⟩
  have := hmem rid
  simpa [cleanupTasks] using this

/-- One node of the replication topology as seen by check_last_link: its
hostname, whether a connection to it succeeds, and the remote hosts of its
own replication agreements (nsds5replicahost values). -/
structure TopoNode where
  name : String
  connOk : Bool
  agreements : List String
deriving DecidableEq, Repr

/-- Lookup of a node by hostname in the topology. -/
def findNode (w : List TopoNode) (n : String) : Option TopoNode :=
  w.find? (fun t => t.name == n)

/-- The orphan condition applied to one neighbor in check_last_link
(lines 831-832): its own agreement list has length one and points back at
the node being deleted. -/
def orphanCand (delName : String) (t : TopoNode) : Bool :=
  t.agreements.length == 1 && (t.agreements.head? == some delName)

/-- The neighbor loop of check_last_link (lines 817-832): each direct
neighbor of the node being deleted is contacted; an unreachable neighbor is
skipped after the operator confirms (or force is set), otherwise the run
exits with "Aborted"; reachable neighbors whose only agreement points back
at the deleted node are collected in order. -/
def cllLoop (delName : String) (w : List TopoNode) (force cont : Bool) :
    List String → Except String (List String)
  | [] => .ok []
  | r :: rs =>
    match findNode w r with
    | none =>
      if force || cont then cllLoop delName w force cont rs
      else .error "Aborted"
    | some t =>
      if !t.connOk then
        if force || cont then cllLoop delName w force cont rs
        else .error "Aborted"
      else
        match cllLoop delName w force cont rs with
        | .error e => .error e
        | .ok os => .ok ((if orphanCand delName t then [r] else []) ++ os)

/-- check_last_link (ipa_replica_manage.py lines 789-837): returns the
comma-joined names of the about-to-be-orphaned neighbors or none. -/
def check_last_link (del : TopoNode) (w : List TopoNode) (force cont : Bool) :
    Except String (Option String) :=
  match cllLoop del.name w force cont del.agreements with
  | .error e => .error e
  | .ok [] => .ok none
  | .ok (o :: os) => .ok (some (String.intercalate ", " (o :: os)))

/-- The orphan guard of del_master_direct (lines 1043-1051): with more than
two registered masters, an orphan reported by check_last_link makes the run
exit with status 1 and the orphan message, with no regard to the force
flag; with two or fewer masters the check is skipped. -/
def del_master_orphan_check (numMasters : Nat) (del : TopoNode)
    (w : List TopoNode) (force cont : Bool) : Except String Unit :=
  if numMasters > 2 then
    match check_last_link del w force cont with
    | .error e => .error e
    | .ok none => .ok ()
    | .ok (some orphans) =>
      .error ("Deleting this server will orphan '" ++ orphans ++
        "'. You will need to reconfigure your replication topology to delete this server.")
  else .ok ()

/-- The reachable-neighbor condition for one agreement host. -/
def neighborReachable (w : List TopoNode) (a : String) : Bool :=
  match findNode w a with
  | some t => t.connOk
  | none => false

/-- The per-neighbor orphan test resolved through the topology. -/
def candByName (w : List TopoNode) (delName : String) (a : String) : Bool :=
  match findNode w a with
  | some t => orphanCand delName t
  | none => false

/-- When every listed neighbor is reachable, the neighbor loop returns, in
order, exactly the neighbors whose only agreement points back at the
deleted node. -/
theorem cllLoop_all_reachable (delName : String) (w : List TopoNode)
    (force cont : Bool) (rs : List String)
    (h : ∀ a ∈ rs, neighborReachable w a = true) :
    cllLoop delName w force cont rs = .ok (rs.filter (candByName w delName)) := by
  induction rs with
  | nil => rfl
  | cons a as ih =>
    have hra := h a (List.mem_cons_self a as)
    unfold neighborReachable at hra
    obtain ⟨t, hfind, hconn⟩ : ∃ t, findNode w a = some t ∧ t.connOk = true := by
      cases hf : findNode w a with
      | none => rw [hf] at hra; cases hra
      | some t => rw [hf] at hra; exact ⟨t, rfl, hra⟩
    have hrest : ∀ x ∈ as, neighborReachable w x = true :=
      fun x hx => h x (List.mem_cons_of_mem a hx)
    have hcand : candByName w delName a = orphanCand delName t := by
      unfold candByName
      rw [hfind]
    unfold cllLoop
    rw [hfind, ih hrest]
    by_cases ho : orphanCand delName t = true
    · simp [hconn, List.filter_cons, hcand, ho]
    · simp [hconn, List.filter_cons, hcand, ho]

/-- C4 (amended): with more than two registered masters and all direct
neighbors of the node being removed reachable, a neighbor whose only
agreement points back at the removed node is reported as orphaned by
check_last_link and the removal is refused with exit status 1 naming it —
regardless of the force flag, which only governs the prompt shown for
unreachable neighbors. -/
theorem del_master_orphan_refused
    (numMasters : Nat) (del : TopoNode) (w : List TopoNode) (force cont : Bool)
    (r : String) (t : TopoNode)
    (hnum : numMasters > 2)
    (hreach : ∀ a ∈ del.agreements, neighborReachable w a = true)
    (hr : r ∈ del.agreements)
    (hfind : findNode w r = some t)
    (hlast : t.agreements = [del.name]) :
    ∃ names, r ∈ names ∧
      check_last_link del w force cont =
        .ok (some (String.intercalate ", " names)) ∧
      del_master_orphan_check numMasters del w force cont =
        .error ("Deleting this server will orphan '" ++ String.intercalate ", " names ++
          "'. You will need to reconfigure your replication topology to delete this server.") := by
  have hloop := cllLoop_all_reachable del.name w force cont del.agreements hreach
  have hcand : candByName w del.name r = true := by
    unfold candByName
    rw [hfind]
    simp [orphanCand, hlast]
  have hrmem : r ∈ del.agreements.filter (candByName w del.name) :=
    List.mem_filter.mpr ⟨hr, hcand⟩
  have hchk : check_last_link del w force cont =
      .ok (some (String.intercalate ", "
        (del.agreements.filter (candByName w del.name)))) := by
    unfold check_last_link
    rw [hloop]
    cases hx : del.agreements.filter (candByName w del.name) with
    | nil => rw [hx] at hrmem; cases hrmem
    | cons n ns => rfl
  refine ⟨del.agreements.filter (candByName w del.name), hrmem, hchk, ?_⟩
  unfold del_master_orphan_check
  rw [if_pos hnum, hchk]

/-- Node A of the C4 scenario: agreement with C. -/
def exTopoA : TopoNode := ⟨"a.example.com", true, ["c.example.com"]⟩

/-- Node B of the C4 scenario: agreement with D only. -/
def exTopoB : TopoNode := ⟨"b.example.com", true, ["d.example.com"]⟩

/-- Node C of the C4 scenario: agreements with A and D. -/
def exTopoC : TopoNode := ⟨"c.example.com", true, ["a.example.com", "d.example.com"]⟩

/-- Node D of the C4 scenario: agreements with C and B. -/
def exTopoD : TopoNode := ⟨"d.example.com", true, ["c.example.com", "b.example.com"]⟩

/-- The topology A-C, C-D, B-D of the C4 scenario. -/
def exTopo : List TopoNode := [exTopoA, exTopoB, exTopoC, exTopoD]

/-- Witness for C4 (amended): removing D without force in the scenario
topology refuses the removal naming B. -/
theorem del_master_orphan_refused_witness :
    ∃ names, "b.example.com" ∈ names ∧
      check_last_link exTopoD exTopo false false =
        .ok (some (String.intercalate ", " names)) ∧
      del_master_orphan_check 4 exTopoD exTopo false false =
        .error ("Deleting this server will orphan '" ++ String.intercalate ", " names ++
          "'. You will need to reconfigure your replication topology to delete this server.") :=
  del_master_orphan_refused 4 exTopoD exTopo false false "b.example.com" exTopoB
    (by decide) (by decide) (by decide) (by decide) (by decide)

/-- Counterexample for C4 as stated: the same removal of D with the force
flag set is still refused — the orphan guard in del_master_direct exits
with status 1 whenever check_last_link reports an orphan, without
consulting the force flag. -/
theorem del_master_orphan_force_counterexample :
    del_master_orphan_check 4 exTopoD exTopo true true =
      .error ("Deleting this server will orphan 'b.example.com'. You will need to reconfigure your replication topology to delete this server.") := by
  rfl

/-- Replication agreement types (replication.IPA_REPLICA and
replication.WINSYNC). -/
inductive AgType
  | IPA
  | WINSYNC
deriving DecidableEq, Repr

/-- What del_link observes when connecting to replica2 and listing its IPA
agreements: the count on success, NotFound when replica2 has no agreement
for replica1, or a connection/list failure. -/
inductive Repl2Result
  | ok (count : Nat)
  | notFound
  | connError
deriving DecidableEq, Repr

/-- How one del_link invocation ends: it returns False after printing the
given messages, it exits via exit_on_managed_topology (sys.exit, status 1),
or it falls through the guards and proceeds to delete the agreement. -/
inductive DelLinkOutcome
  | returnedFalse (msgs : List String)
  | exitedTopo (msg : String)
  | proceeded
deriving DecidableEq, Repr

/-- The message of exit_on_managed_topology (lines 1506-1509). -/
def managedTopologyMsg (what : String) : String :=
  what ++ " is deprecated with managed IPA replication topology. Please use `ipa topologysegment-*` commands to manage the topology."

/-- The guard prefix of del_link (ipa_replica_manage.py lines 253-311):
agreement-type lookup, the managed-topology exit, the last-link refusal on
replica1's side, and the replica2-side checks; `proceeded` stands for
falling through to the code that deletes the agreement. type1 is none when
get_agreement_type raises NotFound; repl1IpaCount is the length of
replica1's IPA agreement list. -/
def del_link_check (replica1 replica2 : String) (managed : Bool)
    (type1 : Option AgType) (repl1IpaCount : Nat) (repl2 : Repl2Result)
    (force : Bool) : DelLinkOutcome :=
  match type1 with
  | none =>
    if managed then
      .exitedTopo (managedTopologyMsg "Removal of IPA replication agreement")
    else
      .returnedFalse ["'" ++ replica1 ++ "' has no replication agreement for '" ++
        replica2 ++ "'"]
  | some t =>
    if t = .IPA ∧ managed = true then
      .exitedTopo (managedTopologyMsg "Removal of IPA replication agreement")
    else if force = false ∧ repl1IpaCount ≤ 1 ∧ t = .IPA then
      .returnedFalse ["Cannot remove the last replication link of '" ++ replica1 ++ "'",
        "Please use the 'del' command to remove it from the domain"]
    else if t = .IPA then
      match repl2 with
      | .ok count2 =>
        if force = false ∧ count2 ≤ 1 then
          .returnedFalse ["Cannot remove the last replication link of '" ++ replica2 ++ "'",
            "Please use the 'del' command to remove it from the domain"]
        else .proceeded
      | .notFound =>
        if force = false then
          .returnedFalse ["'" ++ replica2 ++ "' has no replication agreement for '" ++
            replica1 ++ "'"]
        else .proceeded
      | .connError =>
        if force = false then
          .returnedFalse ["Failed to get list of agreements from '" ++ replica2 ++ "'"]
        else .proceeded
    else .proceeded

/-- C5 (amended): in a topology not managed by the topology plugin, deleting
a node's last remaining IPA replication agreement via del_link without the
force flag is refused: del_link returns False without deleting and prints
the message instructing the operator to use the node-removal command. The
refusal fires on whichever side holds its last agreement. -/
theorem del_link_last_refused
    (replica1 replica2 : String) (type1 : Option AgType)
    (repl1IpaCount : Nat) (repl2 : Repl2Result)
    (h1 : type1 = some AgType.IPA)
    (hlast : repl1IpaCount ≤ 1) :
    del_link_check replica1 replica2 false type1 repl1IpaCount repl2 false =
      .returnedFalse ["Cannot remove the last replication link of '" ++ replica1 ++ "'",
        "Please use the 'del' command to remove it from the domain"] := by
  subst h1
  unfold del_link_check
  simp [hlast]

/-- Witness for C5 (amended): with one agreement left on replica1, no force
and no managed topology, del_link refuses with the two messages. -/
theorem del_link_last_refused_witness :
    del_link_check "x.example.com" "y.example.com" false (some AgType.IPA) 1
      (Repl2Result.ok 3) false =
      .returnedFalse ["Cannot remove the last replication link of 'x.example.com'",
        "Please use the 'del' command to remove it from the domain"] :=
  del_link_last_refused "x.example.com" "y.example.com" (some AgType.IPA) 1
    (Repl2Result.ok 3) rfl (by decide)

/-- Counterexample for C5 as stated: under a managed topology, deleting the
last agreement without force does not return failure with the
use-the-del-command message — del_link exits beforehand with the
topologysegment deprecation message. -/
theorem del_link_last_managed_counterexample :
    del_link_check "x.example.com" "y.example.com" true (some AgType.IPA) 1
      (Repl2Result.ok 3) false =
      .exitedTopo (managedTopologyMsg "Removal of IPA replication agreement") ∧
    del_link_check "x.example.com" "y.example.com" true (some AgType.IPA) 1
      (Repl2Result.ok 3) false ≠
      .returnedFalse ["Cannot remove the last replication link of 'x.example.com'",
        "Please use the 'del' command to remove it from the domain"] := by
  exact ⟨by rfl, by decide⟩

/-- get_rid_by_host (ipa_replica_manage.py lines 471-486): scans the RUV
pairs of the starting host's domain suffix for a netloc equal to the host
with port 389 and converts its replica id; the fall-through returns None. -/
def get_rid_by_host (servers : List (String × String)) (host : String) : Option Int :=
  (servers.find? (fun p => p.1 == host ++ ":389")).bind (fun p => pyInt p.2.data)

/-- One externally visible action of the removal tail of del_master_direct
(lines 1063-1089). -/
inductive DelAction
  | delAgreement (fromHost : String)
  | cleanallruv (rid : Int)
  | replicaCleanup (host : String)
  | dnsCleanup (host : String)
deriving DecidableEq, Repr

/-- The removal tail of del_master_direct (lines 1058-1089): for an IPA-type
master the replica id is looked up from the starting host's domain RUV
first; then every agreement is removed, a CLEANALLRUV task is issued only
when the type is IPA and the id was found, and finally the registry entries
and DNS records of the removed master are cleaned up. -/
def del_master_tail (isIpaType : Bool) (servers : List (String × String))
    (hostname : String) (replicaNames : List String) : List DelAction :=
  let rid := if isIpaType then get_rid_by_host servers hostname else none
  replicaNames.map DelAction.delAgreement ++
    (match isIpaType, rid with
     | true, some r => [DelAction.cleanallruv r]
     | _, _ => []) ++
    [DelAction.replicaCleanup hostname, DelAction.dnsCleanup hostname]

/-- C10: when no RUV entry's origin equals the removed host with port 389,
get_rid_by_host returns none, no CLEANALLRUV task is issued, and the
removal still deletes every agreement and cleans up the registry entries
and DNS records. -/
theorem del_master_tail_no_rid
    (servers : List (String × String)) (hostname : String)
    (replicaNames : List String)
    (h : ∀ p ∈ servers, p.1 ≠ hostname ++ ":389") :
    get_rid_by_host servers hostname = none ∧
    del_master_tail true servers hostname replicaNames =
      replicaNames.map DelAction.delAgreement ++
        [DelAction.replicaCleanup hostname, DelAction.dnsCleanup hostname] := by
  have hfind : servers.find? (fun p => p.1 == hostname ++ ":389") = none := by
    rw [List.find?_eq_none]
    intro p hp
    simpa using h p hp
  have hrid : get_rid_by_host servers hostname = none := by
    unfold get_rid_by_host
    rw [hfind]
    rfl
  refine ⟨hrid, ?_⟩
  unfold del_master_tail
  rw [if_pos rfl, hrid]
  simp

/-- Witness for C10: removing gone.example.com while the domain RUV only
names other.example.com keeps the agreement removal and cleanups but issues
no CLEANALLRUV task. -/
theorem del_master_tail_no_rid_witness :
    get_rid_by_host [("other.example.com:389", "4")] "gone.example.com" = none ∧
    del_master_tail true [("other.example.com:389", "4")] "gone.example.com"
        ["other.example.com"] =
      ["other.example.com"].map DelAction.delAgreement ++
        [DelAction.replicaCleanup "gone.example.com",
         DelAction.dnsCleanup "gone.example.com"] :=
  del_master_tail_no_rid [("other.example.com:389", "4")] "gone.example.com"
    ["other.example.com"] (by decide)
